import Mathlib

/-!
# Verification of the part-time-job marketplace backend core

A shallow embedding of the consistency core of the backend: the four
entities (User, Company, Job, Application) as record types, the persistent
store as lists of records, and the controller operations as pure state
transformers `Store → Res × Store`, translated from

* `src/models/Application.js`, `src/models/Company.js`, `src/models/User.js`,
  the Job model (`src/unnamed/part_005`),
* `src/controllers/applicationController.js`,
* the job controller (`src/unnamed/part_000`, second half),
* `src/controllers/userController.js`.

Mongoose middleware semantics relevant to the embedding:

* `Model.create` / `doc.save()` run document `save` middleware, so
  `applicationSchema.post('save')` fires on every application save.
* `Model.findByIdAndDelete` issues a `findOneAndDelete` query, which runs
  query middleware (`jobSchema.post('findOneAndDelete')`) but does NOT run
  the document middleware `applicationSchema.post('remove')`; the repository
  never calls `doc.remove()`, so that hook never fires.
* Inside a `post('save')` hook `doc.isNew` is always `false` (it is reset
  when the save completes), so the `if (doc.isNew)` branch of the Job
  model's post-save hook is dead and the hook has no effect.
* `findByIdAndUpdate` runs no `save` middleware.
* A mongoose document only exposes paths declared in its schema; reading an
  undeclared path yields `undefined`.
-/

namespace PartTimeJob

/-- The `status` enum of `applicationSchema` (`src/models/Application.js`). -/
inductive AppStatus
  | pending
  | reviewed
  | shortlisted
  | rejected
  | accepted
deriving DecidableEq, Repr

/-- The `userType` enum of `userSchema` (`src/models/User.js`). -/
inductive UserType
  | student
  | employer
deriving DecidableEq, Repr

/-- Outcome of a controller call, following the repository's HTTP responses
and the error-kind table of the spec (§7): 404 → `notFound`; 403 →
`forbidden`; 400 "already applied"/"already saved" → `conflict`; 400
"deadline has passed" → `deadlinePassed`; 400 "cannot withdraw" →
`invalidState`; 400 "Validation failed" → `validationFailed`; 201 →
`created`; other 2xx → `ok`; 500 → `serverError`. -/
inductive Res
  | created
  | ok
  | notFound
  | forbidden
  | conflict
  | deadlinePassed
  | invalidState
  | validationFailed
  | serverError
deriving DecidableEq, Repr

/-- A `User` document (`src/models/User.js`).  Identity fields irrelevant to
the claims (password, phone, avatar, …) are omitted.  `savedJobs` is the
value of the `savedJobs` path read by `userController.js`; the schema
declares no such path, so on every persisted document it is `none`
(mongoose returns `undefined` for undeclared paths). -/
structure UserRec where
  id : Nat
  name : String
  email : String
  userType : UserType
  company : Option Nat
  savedJobs : Option (List Nat)
deriving DecidableEq, Repr

/-- A `Company` document (`src/models/Company.js`).  `city` is
`required: true` in the schema (lines 37–40) and carries no default, hence
the `Option`: a create with `city = none` is rejected by validation.
`jobCount` defaults to 0 and is adjusted only through `$inc`, which has no
lower bound, hence `Int`. -/
structure CompanyRec where
  id : Nat
  name : String
  email : String
  phone : String
  industry : String
  size : String
  city : Option String
  isVerified : Bool
  isActive : Bool
  jobCount : Int
deriving DecidableEq, Repr

/-- A `Job` document (Job model, `src/unnamed/part_005`).  `applicationCount`
defaults to 0 and is adjusted only through unbounded `$inc`, hence `Int`.
Time values (`applicationDeadline`) are instants on an abstract `Nat`
clock. -/
structure JobRec where
  id : Nat
  title : String
  description : String
  requirements : String
  benefits : String
  salary : String
  location : String
  jobType : String
  category : String
  employer : Nat
  company : Nat
  contactEmail : String
  contactPhone : String
  applicationDeadline : Option Nat
  workHours : String
  vacancies : Nat
  experience : String
  education : String
  isActive : Bool
  isFeatured : Bool
  views : Nat
  applicationCount : Int
deriving DecidableEq, Repr

/-- An `Application` document (`src/models/Application.js`). -/
structure ApplicationRec where
  id : Nat
  job : Nat
  applicant : Nat
  coverLetter : Option String
  status : AppStatus
  appliedAt : Nat
  reviewedAt : Option Nat
  reviewedBy : Option Nat
  notes : Option String
  interviewDate : Option Nat
  interviewLocation : Option String
deriving DecidableEq, Repr

/-- The persistent store: one collection per model. -/
structure Store where
  users : List UserRec
  companies : List CompanyRec
  jobs : List JobRec
  applications : List ApplicationRec
deriving DecidableEq, Repr

/-! ## Query helpers (the `findOne` / `findById` calls of the controllers) -/

/-- Embeds `User.findById(uid)`. -/
def findUser (st : Store) (uid : Nat) : Option UserRec :=
  st.users.find? (fun u => u.id == uid)

/-- Embeds `Company.findById(cid)`. -/
def findCompany (st : Store) (cid : Nat) : Option CompanyRec :=
  st.companies.find? (fun c => c.id == cid)

/-- Embeds `Job.findById(jid)`. -/
def findJobById (st : Store) (jid : Nat) : Option JobRec :=
  st.jobs.find? (fun j => j.id == jid)

/-- Embeds `Job.findOne({ _id: jid, isActive: true })`. -/
def findActiveJob (st : Store) (jid : Nat) : Option JobRec :=
  st.jobs.find? (fun j => j.id == jid && j.isActive)

/-- Embeds `Application.findById(aid)`. -/
def findAppById (st : Store) (aid : Nat) : Option ApplicationRec :=
  st.applications.find? (fun a => a.id == aid)

/-- Embeds `Application.findOne({ _id: aid, applicant: uid })`. -/
def findAppByIdAndApplicant (st : Store) (aid uid : Nat) : Option ApplicationRec :=
  st.applications.find? (fun a => a.id == aid && a.applicant == uid)

/-- Embeds `Application.findOne({ job: jid, applicant: uid })`. -/
def findAppByPair (st : Store) (jid uid : Nat) : Option ApplicationRec :=
  st.applications.find? (fun a => a.job == jid && a.applicant == uid)

/-! ## Counter primitives (`findByIdAndUpdate(id, { $inc: { … } })`) -/

/-- Embeds `Job.findByIdAndUpdate(jid, { $inc: { applicationCount: d } })`:
a no-op when no job has id `jid`. -/
def incApplicationCount (jobs : List JobRec) (jid : Nat) (d : Int) : List JobRec :=
  jobs.map (fun j => if j.id == jid then { j with applicationCount := j.applicationCount + d } else j)

/-- Embeds `Company.findByIdAndUpdate(cid, { $inc: { jobCount: d } })`:
a no-op when no company has id `cid`. -/
def incJobCount (companies : List CompanyRec) (cid : Nat) (d : Int) : List CompanyRec :=
  companies.map (fun c => if c.id == cid then { c with jobCount := c.jobCount + d } else c)

/-! ## Reference counts (the authoritative relationships the denormalized
counters are supposed to mirror, spec §8) -/

/-- The count `|{applications referencing job jid}|`. -/
def countApplicationsForJob (st : Store) (jid : Nat) : Nat :=
  (st.applications.filter (fun a => a.job == jid)).length

/-- Number of applications stored for a given (job, applicant) pair. -/
def countApplicationsForPair (st : Store) (jid uid : Nat) : Nat :=
  (st.applications.filter (fun a => a.job == jid && a.applicant == uid)).length

/-- The count `|{active jobs referencing company cid}|`. -/
def countActiveJobsForCompany (st : Store) (cid : Nat) : Nat :=
  (st.jobs.filter (fun j => j.company == cid && j.isActive)).length

/-- The stored `applicationCount` of job `jid` (0 when absent). -/
def jobApplicationCount (st : Store) (jid : Nat) : Int :=
  match findJobById st jid with
  | some j => j.applicationCount
  | none => 0

/-- The stored `jobCount` of company `cid` (0 when absent). -/
def companyJobCount (st : Store) (cid : Nat) : Int :=
  match findCompany st cid with
  | some c => c.jobCount
  | none => 0

/-! ## Application Engine (`applicationController.js`) -/

/-- The hook `applicationSchema.post('save')` (`src/models/Application.js` lines
55–60): `$inc` the parent job's `applicationCount` by 1.  Document `save`
middleware, run by `Application.create`. -/
def applicationPostSaveHook (st : Store) (app : ApplicationRec) : Store :=
  { st with jobs := incApplicationCount st.jobs app.job 1 }

/-- The deadline test of `applyForJob`:
`job.applicationDeadline && new Date() > job.applicationDeadline`. -/
def deadlineHasPassed (j : JobRec) (now : Nat) : Bool :=
  match j.applicationDeadline with
  | some d => now > d
  | none => false

/-- The document handed to `Application.create` by `applyForJob`: job and
applicant references, the cover letter, `status` defaulting to `pending`,
`appliedAt: new Date()`, every other path unset. -/
def freshApplication (studentId jobId : Nat) (coverLetter : Option String)
    (now newAppId : Nat) : ApplicationRec :=
  { id := newAppId, job := jobId, applicant := studentId,
    coverLetter := coverLetter, status := AppStatus.pending,
    appliedAt := now, reviewedAt := none, reviewedBy := none,
    notes := none, interviewDate := none, interviewLocation := none }

/-- Embeds `applyForJob` (`src/controllers/applicationController.js` lines 8–64):
look up the job filtered on `isActive`, reject past-deadline jobs, reject
duplicates for the (job, applicant) pair, then `Application.create`
(status defaults to `pending`) which fires the post-save `$inc` hook.
`now` is the request's wall clock; `newAppId` the id minted by the store. -/
def applyForJob (st : Store) (studentId jobId : Nat) (coverLetter : Option String)
    (now newAppId : Nat) : Res × Store :=
  match findActiveJob st jobId with
  | none => (Res.notFound, st)
  | some job =>
    if deadlineHasPassed job now then
      (Res.deadlinePassed, st)
    else if (findAppByPair st jobId studentId).isSome then
      (Res.conflict, st)
    else
      let app := freshApplication studentId jobId coverLetter now newAppId
      let st1 : Store := { st with applications := st.applications ++ [app] }
      (Res.created, applicationPostSaveHook st1 app)

/-- Embeds `withdrawApplication` (`src/controllers/applicationController.js` lines
289–328): look up by (id, applicant), refuse `shortlisted`/`accepted`,
otherwise `Application.findByIdAndDelete`.  That call runs a
`findOneAndDelete` query, and the Application schema registers no
`findOneAndDelete` middleware — its `post('remove')` document hook is not
triggered — so no `applicationCount` adjustment happens on this path. -/
def withdrawApplication (st : Store) (studentId applicationId : Nat) : Res × Store :=
  match findAppByIdAndApplicant st applicationId studentId with
  | none => (Res.notFound, st)
  | some app =>
    if app.status = AppStatus.shortlisted ∨ app.status = AppStatus.accepted then
      (Res.invalidState, st)
    else
      (Res.ok, { st with applications := st.applications.filter (fun a => a.id != applicationId) })

/-- Request body of `updateApplicationStatus`: `status` plus the three
optional fields that are copied into the update only when supplied. -/
structure StatusUpdateBody where
  status : AppStatus
  notes : Option String
  interviewDate : Option Nat
  interviewLocation : Option String
deriving DecidableEq, Repr

/-- Write back the updated document under id `aid`
(`Application.findByIdAndUpdate`). -/
def overwriteApp (apps : List ApplicationRec) (aid : Nat) (a' : ApplicationRec) :
    List ApplicationRec :=
  apps.map (fun a => if a.id == aid then a' else a)

/-- The document written by `updateApplicationStatus`'s
`findByIdAndUpdate`: status always set, optional fields only when supplied,
and `reviewedAt`/`reviewedBy` stamped exactly when the loaded status is
`pending` and the new one is not. -/
def applyStatusUpdate (app : ApplicationRec) (body : StatusUpdateBody)
    (employerId now : Nat) : ApplicationRec :=
  { app with
    status := body.status
    notes := match body.notes with
      | some n => some n
      | none => app.notes
    interviewDate := match body.interviewDate with
      | some d => some d
      | none => app.interviewDate
    interviewLocation := match body.interviewLocation with
      | some l => some l
      | none => app.interviewLocation
    reviewedAt :=
      if app.status = AppStatus.pending ∧ body.status ≠ AppStatus.pending then
        some now
      else app.reviewedAt
    reviewedBy :=
      if app.status = AppStatus.pending ∧ body.status ≠ AppStatus.pending then
        some employerId
      else app.reviewedBy }

/-- Embeds `updateApplicationStatus` (`src/controllers/applicationController.js`
lines 175–229): 404 when the application is absent; the populated parent
job's `employer` is compared with the caller (a dangling `job` reference
would make `application.job.employer` throw, caught as a 500); then
`findByIdAndUpdate` with the update document above (no `save` middleware
runs). -/
def updateApplicationStatus (st : Store) (employerId applicationId : Nat)
    (body : StatusUpdateBody) (now : Nat) : Res × Store :=
  match findAppById st applicationId with
  | none => (Res.notFound, st)
  | some app =>
    match findJobById st app.job with
    | none => (Res.serverError, st)
    | some job =>
      if job.employer ≠ employerId then
        (Res.forbidden, st)
      else
        let app' := applyStatusUpdate app body employerId now
        (Res.ok, { st with applications := overwriteApp st.applications applicationId app' })

/-! ## Job Registry (job controller, `src/unnamed/part_000` lines 366–798) -/

/-- The request body of `createJob`.  `title`, `description` and `location`
are required by the validation layer (spec §6); every other field is
optional and defaulted by the controller.  `company` is the company *name*
used when auto-provisioning. -/
structure JobBody where
  title : String
  description : String
  location : String
  company : Option String
  contactEmail : Option String
  contactPhone : Option String
  jobType : Option String
  category : Option String
  salary : Option String
  requirements : Option String
  benefits : Option String
  workHours : Option String
  vacancies : Option Nat
  experience : Option String
  education : Option String
  applicationDeadline : Option Nat
deriving DecidableEq, Repr

/-- The temporary company document built by `createJob` (lines 492–499)
when the employer has no company: name from `req.body.company` or
`` `${req.user.name}'s Company` ``, email from `req.body.contactEmail` or
the employer's email, phone from `req.body.contactPhone` or `''`,
`industry: 'General'`, `size: '1-10'`, `isVerified: false`.  No `city` is
supplied. -/
def mkTempCompany (newCompanyId : Nat) (body : JobBody) (user : UserRec) : CompanyRec :=
  { id := newCompanyId
    name := body.company.getD (user.name ++ "'s Company")
    email := body.contactEmail.getD user.email
    phone := body.contactPhone.getD ""
    industry := "General"
    size := "1-10"
    city := none
    isVerified := false
    isActive := true
    jobCount := 0 }

/-- The `companySchema` validation run by `Company.create`
(`src/models/Company.js`): among the fields `createJob` supplies, the one
`required` path that can be missing is `city` (lines 37–40; `name` and
`email` are always set by the construction above). -/
def companyCreateValid (c : CompanyRec) : Bool :=
  c.city.isSome

/-- The `jobData` object assembled by `createJob` (lines 509–534): required
fields copied through, every optional field defaulted.  `vacancies` is
`parseInt(req.body.vacancies) || 1`, so a supplied 0 falls back to 1.
Counters start at the schema defaults. -/
def mkJobRec (newJobId : Nat) (body : JobBody) (user : UserRec) (companyId : Nat) : JobRec :=
  { id := newJobId
    title := body.title
    company := companyId
    employer := user.id
    location := body.location
    description := body.description
    jobType := body.jobType.getD "Bán thời gian"
    category := body.category.getD "Khác"
    salary := body.salary.getD "Thương lượng"
    requirements := body.requirements.getD ""
    benefits := body.benefits.getD ""
    contactEmail := body.contactEmail.getD user.email
    contactPhone := body.contactPhone.getD ""
    workHours := body.workHours.getD "Linh hoạt"
    vacancies := match body.vacancies with
      | some n => if n = 0 then 1 else n
      | none => 1
    experience := body.experience.getD "Không yêu cầu"
    education := body.education.getD "Không yêu cầu"
    isActive := true
    applicationDeadline := body.applicationDeadline
    isFeatured := false
    views := 0
    applicationCount := 0 }

/-- Embeds `createJob` (job controller lines 478–601).  If the caller has no
company, `Company.create` is attempted with the temporary document; its
missing required `city` makes validation fail, the error is caught and the
request ends as a 400 "Validation failed" with nothing persisted.
Otherwise the job is created (`jobSchema.post('save')` fires but its
`doc.isNew` test is false inside a post hook, so it is a no-op) and the
controller `$inc`s the owning company's `jobCount` by 1. -/
def createJob (st : Store) (employerId : Nat) (body : JobBody)
    (newCompanyId newJobId : Nat) : Res × Store :=
  match findUser st employerId with
  | none => (Res.serverError, st)
  | some user =>
    match user.company with
    | some companyId =>
      let job := mkJobRec newJobId body user companyId
      let st1 : Store := { st with jobs := st.jobs ++ [job] }
      (Res.created, { st1 with companies := incJobCount st1.companies companyId 1 })
    | none =>
      let temp := mkTempCompany newCompanyId body user
      if companyCreateValid temp then
        let users1 := st.users.map
          (fun u => if u.id == employerId then { u with company := some temp.id } else u)
        let st1 : Store := { st with companies := st.companies ++ [temp], users := users1 }
        let job := mkJobRec newJobId body user temp.id
        let st2 : Store := { st1 with jobs := st1.jobs ++ [job] }
        (Res.created, { st2 with companies := incJobCount st2.companies temp.id 1 })
      else
        (Res.validationFailed, st)

/-- The write performed by `getJob`: `job.views += 1; await job.save()`,
touching nothing else on the document. -/
def bumpViews (jobs : List JobRec) (jid : Nat) : List JobRec :=
  jobs.map (fun j => if j.id == jid then { j with views := j.views + 1 } else j)

/-- Embeds `getJob` (job controller lines 440–473): 404 when absent; otherwise
`job.views += 1; await job.save()` and nothing else on the document.  The
Job post-save hook is a no-op (`doc.isNew` is false in post hooks). -/
def getJob (st : Store) (jobId : Nat) : Res × Store :=
  match findJobById st jobId with
  | none => (Res.notFound, st)
  | some _ => (Res.ok, { st with jobs := bumpViews st.jobs jobId })

/-- The sparse patch object `req.body` handed to `updateJob`'s
`findByIdAndUpdate`: the controller restricts nothing, so every schema path
— including `employer`, `company`, `views`, `applicationCount`,
`isFeatured` — may appear. -/
structure JobPatch where
  title : Option String
  description : Option String
  salary : Option String
  location : Option String
  jobType : Option String
  category : Option String
  employer : Option Nat
  company : Option Nat
  contactEmail : Option String
  applicationDeadline : Option Nat
  isActive : Option Bool
  isFeatured : Option Bool
  views : Option Nat
  applicationCount : Option Int
deriving DecidableEq, Repr

/-- The empty patch (no field supplied). -/
def emptyJobPatch : JobPatch :=
  { title := none, description := none, salary := none, location := none,
    jobType := none, category := none, employer := none, company := none,
    contactEmail := none, applicationDeadline := none, isActive := none,
    isFeatured := none, views := none, applicationCount := none }

/-- Embeds `findByIdAndUpdate(id, req.body)`: each path present in the patch is
`$set`, absent paths are left as stored. -/
def applyJobPatch (j : JobRec) (p : JobPatch) : JobRec :=
  { j with
    title := p.title.getD j.title
    description := p.description.getD j.description
    salary := p.salary.getD j.salary
    location := p.location.getD j.location
    jobType := p.jobType.getD j.jobType
    category := p.category.getD j.category
    employer := p.employer.getD j.employer
    company := p.company.getD j.company
    contactEmail := p.contactEmail.getD j.contactEmail
    applicationDeadline := match p.applicationDeadline with
      | some d => some d
      | none => j.applicationDeadline
    isActive := p.isActive.getD j.isActive
    isFeatured := p.isFeatured.getD j.isFeatured
    views := p.views.getD j.views
    applicationCount := p.applicationCount.getD j.applicationCount }

/-- Embeds `findByIdAndUpdate(jid, req.body)` over the jobs collection. -/
def patchJobs (jobs : List JobRec) (jid : Nat) (patch : JobPatch) : List JobRec :=
  jobs.map (fun j => if j.id == jid then applyJobPatch j patch else j)

/-- Embeds `updateJob` (job controller lines 606–654): 404 when absent, 403 when
`job.employer.toString() !== req.user.id`, otherwise `findByIdAndUpdate`
with the raw body (no field allow-list, no counter side effects). -/
def updateJob (st : Store) (employerId jobId : Nat) (patch : JobPatch) : Res × Store :=
  match findJobById st jobId with
  | none => (Res.notFound, st)
  | some job =>
    if job.employer ≠ employerId then
      (Res.forbidden, st)
    else
      (Res.ok, { st with jobs := patchJobs st.jobs jobId patch })

/-- The hook `jobSchema.post('findOneAndDelete')` (Job model lines 292–304): `$inc`
the deleted document's company `jobCount` by −1.  Query middleware, run by
`Job.findByIdAndDelete`. -/
def jobPostFindOneAndDeleteHook (st : Store) (doc : JobRec) : Store :=
  { st with companies := incJobCount st.companies doc.company (-1) }

/-- Embeds `deleteJob` (job controller lines 659–703): 404 when absent, 403 when
not the owner; then `Job.findByIdAndDelete` (which runs the
post-`findOneAndDelete` hook above) followed by the controller's own
explicit `$inc { jobCount: -1 }` on `job.company` — two decrements per
deleted job, neither bounded below. -/
def deleteJob (st : Store) (employerId jobId : Nat) : Res × Store :=
  match findJobById st jobId with
  | none => (Res.notFound, st)
  | some job =>
    if job.employer ≠ employerId then
      (Res.forbidden, st)
    else
      let st1 : Store := { st with jobs := st.jobs.filter (fun j => j.id != jobId) }
      let st2 := jobPostFindOneAndDeleteHook st1 job
      (Res.ok, { st2 with companies := incJobCount st2.companies job.company (-1) })

/-! ## Saved jobs (`src/controllers/userController.js` lines 245–289) -/

/-- Embeds `saveJob`: checks the job exists and is active, loads the user, then
evaluates `user.savedJobs.includes(jobId)`.  The `User` schema declares no
`savedJobs` path, so on a real document `user.savedJobs` is `undefined`
(modelled as `none`) and the `.includes` call throws a `TypeError`, caught
by the handler as a 500 with nothing written.  The remaining lines (push,
cap at 50 keeping the last 50 via `slice(-50)`, save) are translated
faithfully for the `some` case even though no persisted document can reach
them. -/
def saveJob (st : Store) (userId jobId : Nat) : Res × Store :=
  match findActiveJob st jobId with
  | none => (Res.notFound, st)
  | some _ =>
    match findUser st userId with
    | none => (Res.serverError, st)
    | some user =>
      match user.savedJobs with
      | none => (Res.serverError, st)
      | some saved =>
        if jobId ∈ saved then
          (Res.conflict, st)
        else
          let saved1 := saved ++ [jobId]
          let saved2 := if saved1.length > 50 then saved1.drop (saved1.length - 50) else saved1
          let users1 := st.users.map
            (fun u => if u.id == userId then { u with savedJobs := some saved2 } else u)
          (Res.ok, { st with users := users1 })

/-- Since `src/models/User.js` declares no `savedJobs` path, so every document
persisted through the `User` model carries none. -/
def userDocMatchesSchema (u : UserRec) : Prop :=
  u.savedJobs = none

/-! ## Concrete fixtures for the ground-truth evaluations -/

/-- An employer (id 1) owning company 1. -/
def demoEmployer : UserRec :=
  { id := 1, name := "Lan", email := "lan@example.com", userType := UserType.employer,
    company := some 1, savedJobs := none }

/-- A student (id 2). -/
def demoStudent : UserRec :=
  { id := 2, name := "Minh", email := "minh@example.com", userType := UserType.student,
    company := none, savedJobs := none }

/-- Company 1, a fully valid stored document with one job (job 1). -/
def demoCompany : CompanyRec :=
  { id := 1, name := "Quan Cafe", email := "hr@quancafe.vn", phone := "",
    industry := "General", size := "1-10", city := some "Ha Noi",
    isVerified := false, isActive := true, jobCount := 1 }

/-- Job 1: active, owned by employer 1 and company 1, no deadline, no
applications yet. -/
def demoJob : JobRec :=
  { id := 1, title := "Barista", description := "Pha che ca phe",
    requirements := "", benefits := "", salary := "Thương lượng",
    location := "Ha Noi", jobType := "Bán thời gian", category := "Phục vụ",
    employer := 1, company := 1, contactEmail := "lan@example.com",
    contactPhone := "", applicationDeadline := none, workHours := "Linh hoạt",
    vacancies := 1, experience := "Không yêu cầu", education := "Không yêu cầu",
    isActive := true, isFeatured := false, views := 0, applicationCount := 0 }

/-- Base store: the employer, the student, company 1 and job 1. -/
def demoStore : Store :=
  { users := [demoEmployer, demoStudent], companies := [demoCompany],
    jobs := [demoJob], applications := [] }

/-- A pending application (id 5) of the student for job 1. -/
def demoApplication : ApplicationRec :=
  { id := 5, job := 1, applicant := 2, coverLetter := none,
    status := AppStatus.pending, appliedAt := 1, reviewedAt := none,
    reviewedBy := none, notes := none, interviewDate := none,
    interviewLocation := none }

/-- Job 1 with its counter at 1, as the post-save hook leaves it after one
application. -/
def demoJobWithCount : JobRec :=
  { demoJob with applicationCount := 1 }

/-- The store `demoStore` with `demoApplication` stored (the job's counter already
incremented by the create, as the post-save hook leaves it). -/
def demoStoreWithApp : Store :=
  { demoStore with
    jobs := [demoJobWithCount],
    applications := [demoApplication] }

/-- A status-update body carrying only the new status. -/
def statusOnly (s : AppStatus) : StatusUpdateBody :=
  { status := s, notes := none, interviewDate := none, interviewLocation := none }

/-- A shortlisted application (id 6) of the student for job 1. -/
def c3LockedApp : ApplicationRec :=
  { demoApplication with id := 6, status := AppStatus.shortlisted }

/-- Store holding both the pending application 5 and the shortlisted
application 6. -/
def c3Store : Store :=
  { demoStore with applications := [demoApplication, c3LockedApp] }

/-- Job 3: inactive, with a deadline (instant 5) already in the past at
instant 10. -/
def c5InactiveJob : JobRec :=
  { demoJob with id := 3, isActive := false, applicationDeadline := some 5 }

/-- Store holding only the inactive, past-deadline job 3. -/
def c5Store : Store :=
  { demoStore with jobs := [c5InactiveJob] }

/-- Job 1, active but with its deadline (instant 5) in the past at 10. -/
def c5ActiveJob : JobRec :=
  { demoJob with applicationDeadline := some 5 }

/-- Store holding the active past-deadline job. -/
def c5ActiveStore : Store :=
  { demoStore with jobs := [c5ActiveJob] }

/-- An employer (id 4) with no associated company. -/
def c6Employer : UserRec :=
  { demoEmployer with id := 4, company := none }

/-- Store holding only the company-less employer. -/
def c6Store : Store :=
  { users := [c6Employer], companies := [], jobs := [], applications := [] }

/-- A minimal valid job request body: the three required fields, nothing
else supplied. -/
def minimalJobBody : JobBody :=
  { title := "Barista", description := "Pha che ca phe", location := "Ha Noi",
    company := none, contactEmail := none, contactPhone := none,
    jobType := none, category := none, salary := none, requirements := none,
    benefits := none, workHours := none, vacancies := none, experience := none,
    education := none, applicationDeadline := none }

/-- Company 1 with no jobs yet (`jobCount` at its schema default 0). -/
def c7Company : CompanyRec :=
  { demoCompany with jobCount := 0 }

/-- Store: employer 1 owning company 1, which has no jobs. -/
def c7Store : Store :=
  { users := [demoEmployer], companies := [c7Company], jobs := [],
    applications := [] }

/-! ## Helper lemmas -/

/-- The operator `find?` commutes with a `map` whose function does not change the
predicate's verdict on any element. -/
theorem find?_map_congr {α : Type} (l : List α) (p : α → Bool) (f : α → α)
    (hf : ∀ a, p (f a) = p a) :
    (l.map f).find? p = (l.find? p).map f := by
  rw [List.find?_map]
  have hpf : p ∘ f = p := funext hf
  rw [hpf]

/-- Adjusting one job's counter never changes which job an active-job lookup
finds, only that job's counter. -/
theorem findActiveJob_inc (jobs : List JobRec) (jid J : Nat) (d : Int) :
    (incApplicationCount jobs jid d).find? (fun x => x.id == J && x.isActive) =
    (jobs.find? (fun x => x.id == J && x.isActive)).map
      (fun x => if x.id == jid then { x with applicationCount := x.applicationCount + d } else x) := by
  apply find?_map_congr
  intro a
  by_cases h : (a.id == jid) = true <;> simp [incApplicationCount, h]

/-- Adjusting a job's counter leaves its deadline test unchanged. -/
theorem deadlineHasPassed_inc (x : JobRec) (jid : Nat) (d : Int) (now : Nat) :
    deadlineHasPassed
      (if x.id == jid then { x with applicationCount := x.applicationCount + d } else x) now =
    deadlineHasPassed x now := by
  by_cases h : (x.id == jid) = true <;> simp [h, deadlineHasPassed]

/-! ## The claims -/

/-- C1.  The claim states that after any sequence of successful applies and
withdraws, `J.applicationCount` equals the number of Application records
referencing `J`, every successful withdraw decrementing the counter by one.
On the code this fails: `withdrawApplication` deletes through
`Application.findByIdAndDelete`, which does not trigger the schema's
`post('remove')` decrement hook, so a successful apply followed by a
successful withdraw leaves `applicationCount = 1` while zero applications
reference the job. -/
theorem C1_withdraw_never_decrements_applicationCount :
    (applyForJob demoStore 2 1 none 10 7).1 = Res.created ∧
    (withdrawApplication (applyForJob demoStore 2 1 none 10 7).2 2 7).1 = Res.ok ∧
    jobApplicationCount (withdrawApplication (applyForJob demoStore 2 1 none 10 7).2 2 7).2 1 = 1 ∧
    countApplicationsForJob (withdrawApplication (applyForJob demoStore 2 1 none 10 7).2 2 7).2 1 = 0 := by
  decide

/-- C2.  A second `apply` for the same (student, job) pair after a successful
one fails with Conflict and changes nothing, the store holds exactly one
Application for the pair, and the counter increment ran exactly once — on
the successful creation (hypothesis: the job's deadline has not passed at
the time of the second call; `applyForJob` checks the deadline before the
duplicate test). -/
theorem C2_second_apply_conflicts_and_single_increment (st : Store) (S J : Nat)
    (c1 c2 : Option String) (now1 now2 id1 id2 : Nat)
    (h1 : (applyForJob st S J c1 now1 id1).1 = Res.created)
    (h2 : ∀ j ∈ st.jobs, j.id = J → deadlineHasPassed j now2 = false) :
    applyForJob (applyForJob st S J c1 now1 id1).2 S J c2 now2 id2 =
      (Res.conflict, (applyForJob st S J c1 now1 id1).2) ∧
    countApplicationsForPair (applyForJob st S J c1 now1 id1).2 J S = 1 ∧
    ((applyForJob st S J c1 now1 id1).2).jobs = incApplicationCount st.jobs J 1 := by
  cases hfind : findActiveJob st J with
  | none => simp [applyForJob, hfind] at h1
  | some j =>
    by_cases hd : deadlineHasPassed j now1 = true
    · simp [applyForJob, hfind, hd] at h1
    · replace hd : deadlineHasPassed j now1 = false := by simpa using hd
      by_cases hdup : (findAppByPair st J S).isSome = true
      · simp [applyForJob, hfind, hd, hdup] at h1
      · replace hdup : findAppByPair st J S = none := by
          cases hq : findAppByPair st J S with
          | none => rfl
          | some a => rw [hq] at hdup; simp at hdup
        have happly : applyForJob st S J c1 now1 id1 =
            (Res.created,
              { st with
                applications := st.applications ++ [freshApplication S J c1 now1 id1],
                jobs := incApplicationCount st.jobs J 1 }) := by
          simp [applyForJob, hfind, hd, hdup, applicationPostSaveHook, freshApplication]
        rw [happly]
        have hjmem : j ∈ st.jobs := by
          have hfind' : st.jobs.find? (fun x => x.id == J && x.isActive) = some j := hfind
          exact List.mem_of_find?_eq_some hfind'
        have hjid : j.id = J := by
          have hfind' : st.jobs.find? (fun x => x.id == J && x.isActive) = some j := hfind
          have := List.find?_some hfind'
          simp at this
          exact this.1
        have hnil : st.applications.filter (fun a => a.job == J && a.applicant == S) = [] := by
          rw [List.filter_eq_nil_iff]
          intro a ha
          have hdup' : st.applications.find? (fun a => a.job == J && a.applicant == S) = none := hdup
          have := List.find?_eq_none.mp hdup' a ha
          simpa using this
        refine ⟨?_, ?_, rfl⟩
        · have hfind2 : findActiveJob
              { st with
                applications := st.applications ++ [freshApplication S J c1 now1 id1],
                jobs := incApplicationCount st.jobs J 1 } J =
              some (if j.id == J then { j with applicationCount := j.applicationCount + 1 } else j) := by
            show (incApplicationCount st.jobs J 1).find? (fun x => x.id == J && x.isActive) = _
            rw [findActiveJob_inc]
            have hfind' : st.jobs.find? (fun x => x.id == J && x.isActive) = some j := hfind
            rw [hfind']
            rfl
          have hd2 : deadlineHasPassed
              (if j.id == J then { j with applicationCount := j.applicationCount + 1 } else j) now2 =
              false := by
            rw [deadlineHasPassed_inc]
            exact h2 j hjmem hjid
          have hdup2 : ((findAppByPair
              { st with
                applications := st.applications ++ [freshApplication S J c1 now1 id1],
                jobs := incApplicationCount st.jobs J 1 } J S)).isSome = true := by
            show ((st.applications ++ [freshApplication S J c1 now1 id1]).find?
              (fun a => a.job == J && a.applicant == S)).isSome = true
            rw [List.find?_append]
            have hdup' : st.applications.find? (fun a => a.job == J && a.applicant == S) = none := hdup
            rw [hdup']
            simp [freshApplication]
          simp [hjid] at hfind2 hd2
          simp [applyForJob, hfind2, hd2, hdup2]
        · show ((st.applications ++ [freshApplication S J c1 now1 id1]).filter
            (fun a => a.job == J && a.applicant == S)).length = 1
          rw [List.filter_append, hnil]
          simp [freshApplication]

/-- Witness for C2 on `demoStore`: student 2 applies to job 1 at instant 10
(succeeds), then applies again at instant 11 and gets Conflict with the
store unchanged. -/
theorem C2_witness :
    applyForJob (applyForJob demoStore 2 1 none 10 7).2 2 1 none 11 8 =
      (Res.conflict, (applyForJob demoStore 2 1 none 10 7).2) :=
  (C2_second_apply_conflicts_and_single_increment demoStore 2 1 none none 10 11 7 8
    (by decide) (by decide)).1

/-- C3.  When the stored application for (id, applicant) is `shortlisted` or
`accepted`, withdraw fails InvalidState and the store is untouched; when its
status is `pending`, `reviewed` or `rejected`, withdraw succeeds and removes
exactly that record. -/
theorem C3_withdraw_locked_states_guard (st : Store) (S aid : Nat)
    (app : ApplicationRec)
    (hfind : findAppByIdAndApplicant st aid S = some app) :
    ((app.status = AppStatus.shortlisted ∨ app.status = AppStatus.accepted) →
      withdrawApplication st S aid = (Res.invalidState, st)) ∧
    ((app.status = AppStatus.pending ∨ app.status = AppStatus.reviewed ∨
        app.status = AppStatus.rejected) →
      withdrawApplication st S aid =
        (Res.ok, { st with applications := st.applications.filter (fun a => a.id != aid) })) := by
  constructor
  · intro h
    simp [withdrawApplication, hfind, h]
  · intro h
    have hne : ¬(app.status = AppStatus.shortlisted ∨ app.status = AppStatus.accepted) := by
      rcases h with h | h | h <;> simp [h]
    simp [withdrawApplication, hfind, hne]

/-- Witness for C3: in a store with a shortlisted application (id 6) and a
pending one (id 5), withdrawing 6 fails InvalidState leaving the store
unchanged, withdrawing 5 succeeds and deletes it. -/
theorem C3_witness :
    withdrawApplication c3Store 2 6 = (Res.invalidState, c3Store) ∧
    withdrawApplication c3Store 2 5 =
      (Res.ok, { c3Store with applications := c3Store.applications.filter (fun a => a.id != 5) }) :=
  ⟨(C3_withdraw_locked_states_guard c3Store 2 6 c3LockedApp (by decide)).1 (Or.inl (by decide)),
   (C3_withdraw_locked_states_guard c3Store 2 5 demoApplication (by decide)).2 (Or.inl (by decide))⟩

/-- Intermediate state for the C4 trace: the employer moves application 5
from `pending` to `reviewed` at instant 10 (first stamp). -/
def c4State1 : Store :=
  (updateApplicationStatus demoStoreWithApp 1 5 (statusOnly AppStatus.reviewed) 10).2

/-- Second step of the C4 trace: status moved back to `pending` at 20. -/
def c4State2 : Store :=
  (updateApplicationStatus c4State1 1 5 (statusOnly AppStatus.pending) 20).2

/-- Third step of the C4 trace: status moved to `accepted` at 30. -/
def c4State3 : Store :=
  (updateApplicationStatus c4State2 1 5 (statusOnly AppStatus.accepted) 30).2

/-- C4 counterexample.  The claim states `reviewedAt`/`reviewedBy` are
written exactly once and that later transitions — including back to
`pending` and away again — never re-stamp.  On the code, the trace
pending → reviewed (at 10) → pending (at 20) → accepted (at 30) stamps
`reviewedAt` to 10 at the first step and re-stamps it to 30 at the third,
because `updateApplicationStatus` stamps whenever the loaded status is
`pending` and the new one is not. -/
theorem C4_counterexample_restamp_after_pending_regression :
    (findAppById c4State1 5).map (fun a => a.reviewedAt) = some (some 10) ∧
    (findAppById c4State2 5).map (fun a => a.reviewedAt) = some (some 10) ∧
    (findAppById c4State3 5).map (fun a => a.reviewedAt) = some (some 30) ∧
    (findAppById c4State3 5).map (fun a => a.reviewedAt) ≠ some (some 10) := by
  decide

/-- C4 as amended.  A successful `updateApplicationStatus` writes back
exactly `applyStatusUpdate`, which stamps `reviewedAt`/`reviewedBy` when
and only when the stored status is `pending` and the new status is not.
They are therefore written once at the first change away from `pending` and
left alone by every update whose pre-state is non-pending — but a change
away from `pending` after a regression to `pending` stamps them again. -/
theorem C4_stamp_iff_leaving_pending (st : Store) (E aid : Nat)
    (body : StatusUpdateBody) (now : Nat) (app : ApplicationRec) (job : JobRec)
    (happ : findAppById st aid = some app)
    (hjob : findJobById st app.job = some job)
    (hown : job.employer = E) :
    (updateApplicationStatus st E aid body now).1 = Res.ok ∧
    findAppById (updateApplicationStatus st E aid body now).2 aid =
      some (applyStatusUpdate app body E now) ∧
    (app.status = AppStatus.pending ∧ body.status ≠ AppStatus.pending →
      (applyStatusUpdate app body E now).reviewedAt = some now ∧
      (applyStatusUpdate app body E now).reviewedBy = some E) ∧
    (app.status ≠ AppStatus.pending ∨ body.status = AppStatus.pending →
      (applyStatusUpdate app body E now).reviewedAt = app.reviewedAt ∧
      (applyStatusUpdate app body E now).reviewedBy = app.reviewedBy) := by
  have happ' : st.applications.find? (fun a => a.id == aid) = some app := happ
  have haid : (app.id == aid) = true := by simpa using List.find?_some happ'
  have hupd : updateApplicationStatus st E aid body now = (Res.ok,
      { st with applications := overwriteApp st.applications aid (applyStatusUpdate app body E now) }) := by
    simp [updateApplicationStatus, happ, hjob, hown]
  have hmap : findAppById
      { st with applications := overwriteApp st.applications aid (applyStatusUpdate app body E now) } aid =
      some (applyStatusUpdate app body E now) := by
    show (overwriteApp st.applications aid (applyStatusUpdate app body E now)).find?
      (fun a => a.id == aid) = _
    unfold overwriteApp
    rw [find?_map_congr st.applications _ _ ?hfp]
    case hfp =>
      intro a
      by_cases h : (a.id == aid) = true <;> simp [h, applyStatusUpdate, haid]
    rw [happ']
    show some (if (app.id == aid) = true then applyStatusUpdate app body E now else app) = _
    rw [if_pos haid]
  rw [hupd]
  refine ⟨rfl, hmap, ?_, ?_⟩
  · intro hstamp
    simp [applyStatusUpdate, hstamp]
  · intro hnostamp
    have hns : ¬(app.status = AppStatus.pending ∧ body.status ≠ AppStatus.pending) := by
      rcases hnostamp with h | h <;> simp [h]
    simp [applyStatusUpdate, hns]

/-- Witness for the amended C4: the employer moves the pending application 5
to `reviewed`, the call succeeds and the stored record carries the stamp. -/
theorem C4_witness :
    (updateApplicationStatus demoStoreWithApp 1 5 (statusOnly AppStatus.reviewed) 10).1 = Res.ok ∧
    (applyStatusUpdate demoApplication (statusOnly AppStatus.reviewed) 1 10).reviewedAt = some 10 ∧
    (applyStatusUpdate demoApplication (statusOnly AppStatus.reviewed) 1 10).reviewedBy = some 1 := by
  have h := C4_stamp_iff_leaving_pending demoStoreWithApp 1 5 (statusOnly AppStatus.reviewed) 10
    demoApplication demoJobWithCount (by decide) (by decide) (by decide)
  exact ⟨h.1, h.2.2.1 ⟨by decide, by decide⟩⟩

/-- C5 counterexample.  The claim states that a past deadline always yields
DeadlinePassed regardless of `isActive`; but `applyForJob` filters on
`isActive: true` before the deadline test, so applying to the inactive job 3
whose deadline (5) is already past at instant 10 yields NotFound, not
DeadlinePassed. -/
theorem C5_counterexample_inactive_past_deadline_not_found :
    applyForJob c5Store 2 3 none 10 7 = (Res.notFound, c5Store) ∧
    (applyForJob c5Store 2 3 none 10 7).1 ≠ Res.deadlinePassed := by
  decide

/-- C5 as amended.  For a job that passes the `isActive: true` lookup, a
past deadline makes apply fail DeadlinePassed (and change nothing); a job
that is absent or inactive makes apply fail NotFound regardless of its
deadline. -/
theorem C5_deadline_check_only_for_active_jobs (st : Store) (S J : Nat)
    (cov : Option String) (now aid : Nat) :
    (∀ j, findActiveJob st J = some j → deadlineHasPassed j now = true →
      applyForJob st S J cov now aid = (Res.deadlinePassed, st)) ∧
    (findActiveJob st J = none → applyForJob st S J cov now aid = (Res.notFound, st)) := by
  constructor
  · intro j hj hd
    simp [applyForJob, hj, hd]
  · intro h
    simp [applyForJob, h]

/-- Witness for the amended C5: applying to the active job whose deadline
(5) is past at instant 10 fails DeadlinePassed; applying to the absent job
99 fails NotFound. -/
theorem C5_witness :
    applyForJob c5ActiveStore 2 1 none 10 7 = (Res.deadlinePassed, c5ActiveStore) ∧
    applyForJob c5ActiveStore 2 99 none 10 7 = (Res.notFound, c5ActiveStore) :=
  ⟨(C5_deadline_check_only_for_active_jobs c5ActiveStore 2 1 none 10 7).1 c5ActiveJob
      (by decide) (by decide),
   (C5_deadline_check_only_for_active_jobs c5ActiveStore 2 99 none 10 7).2 (by decide)⟩

/-- C6.  The claim states that an employer with no company who posts a job
gets a Company auto-provisioned with `jobCount = 1` and the job created.
On the code this fails: the temporary company document built by `createJob`
supplies no `city`, while `companySchema` requires one, so `Company.create`
is rejected, the handler returns 400 "Validation failed", and no company,
no user update and no job are persisted — the store is returned unchanged. -/
theorem C6_autoprovision_rejected_missing_city :
    createJob c6Store 4 minimalJobBody 8 9 = (Res.validationFailed, c6Store) ∧
    companyCreateValid (mkTempCompany 8 minimalJobBody c6Employer) = false := by
  decide

/-- C7.  The claim states `jobCount` equals the number of active jobs
referencing the company after any sequence of creates and deletes, floored
at 0.  On the code this fails: `deleteJob` decrements twice — once through
the Job model's `post('findOneAndDelete')` hook and once through the
controller's own `$inc { jobCount: -1 }` — with no lower bound, so creating
one job (count 1, correct) and then deleting it leaves `jobCount = -1`
while zero active jobs reference the company. -/
theorem C7_delete_double_decrement_drives_jobCount_negative :
    (createJob c7Store 1 minimalJobBody 8 9).1 = Res.created ∧
    companyJobCount (createJob c7Store 1 minimalJobBody 8 9).2 1 = 1 ∧
    countActiveJobsForCompany (createJob c7Store 1 minimalJobBody 8 9).2 1 = 1 ∧
    (deleteJob (createJob c7Store 1 minimalJobBody 8 9).2 1 9).1 = Res.ok ∧
    companyJobCount (deleteJob (createJob c7Store 1 minimalJobBody 8 9).2 1 9).2 1 = -1 ∧
    countActiveJobsForCompany (deleteJob (createJob c7Store 1 minimalJobBody 8 9).2 1 9).2 1 = 0 := by
  decide

/-- C8.  The claim describes a bounded saved-jobs list (capacity 50, most
recent retained).  On the code this behaviour is unreachable: the `User`
schema declares no `savedJobs` path, so every stored user has none, the
controller's `user.savedJobs.includes(...)` throws, and every `saveJob`
call ends as NotFound (bad job) or a 500 with the store unchanged — nothing
is ever saved. -/
theorem C8_saveJob_never_persists (st : Store) (uid jid : Nat)
    (h : ∀ u ∈ st.users, u.savedJobs = none) :
    (saveJob st uid jid).2 = st ∧
    ((saveJob st uid jid).1 = Res.notFound ∨ (saveJob st uid jid).1 = Res.serverError) := by
  unfold saveJob
  cases hj : findActiveJob st jid with
  | none => simp
  | some j =>
    cases hu : findUser st uid with
    | none => simp
    | some u =>
      have hmem : u ∈ st.users := List.mem_of_find?_eq_some hu
      simp [h u hmem]

/-- Witness for C8: the student saving the active job 1 in `demoStore` (all
of whose users, like any user persisted through the schema, carry no
`savedJobs` value) gets an error and the store is unchanged. -/
theorem C8_witness :
    (saveJob demoStore 2 1).2 = demoStore ∧
    ((saveJob demoStore 2 1).1 = Res.notFound ∨ (saveJob demoStore 2 1).1 = Res.serverError) :=
  C8_saveJob_never_persists demoStore 2 1 (by decide)

/-- C9.  A `getJob` on a missing id returns NotFound and leaves the store
untouched; on a stored job it succeeds, the stored record becomes exactly
the old one with `views` incremented by 1 (every other field equal), the
other collections are untouched, and every job with a different id is still
stored unchanged. -/
theorem C9_getJob_increments_views_only (st : Store) (J : Nat) :
    (findJobById st J = none → getJob st J = (Res.notFound, st)) ∧
    (∀ j, findJobById st J = some j →
      (getJob st J).1 = Res.ok ∧
      findJobById (getJob st J).2 J = some { j with views := j.views + 1 } ∧
      (getJob st J).2.users = st.users ∧
      (getJob st J).2.companies = st.companies ∧
      (getJob st J).2.applications = st.applications ∧
      ∀ k ∈ st.jobs, (k.id == J) = false → k ∈ (getJob st J).2.jobs) := by
  constructor
  · intro h
    simp [getJob, h]
  · intro j hj
    have hj' : st.jobs.find? (fun x => x.id == J) = some j := hj
    have hjid : (j.id == J) = true := by simpa using List.find?_some hj'
    have hget : getJob st J = (Res.ok, { st with jobs := bumpViews st.jobs J }) := by
      simp [getJob, hj]
    have hmap : findJobById { st with jobs := bumpViews st.jobs J } J =
        some { j with views := j.views + 1 } := by
      show (bumpViews st.jobs J).find? (fun x => x.id == J) = _
      unfold bumpViews
      rw [find?_map_congr st.jobs _ _ ?hfp]
      case hfp =>
        intro a
        by_cases h : (a.id == J) = true <;> simp [h]
      rw [hj']
      show some (if (j.id == J) = true then { j with views := j.views + 1 } else j) = _
      rw [if_pos hjid]
    rw [hget]
    refine ⟨rfl, hmap, rfl, rfl, rfl, ?_⟩
    intro k hk hkid
    show k ∈ bumpViews st.jobs J
    unfold bumpViews
    exact List.mem_map.mpr ⟨k, hk, by simp [hkid]⟩

/-- Witness for C9: reading the absent job 99 returns NotFound and changes
nothing; reading job 1 succeeds and stores it with `views` bumped to 1. -/
theorem C9_witness :
    getJob demoStore 99 = (Res.notFound, demoStore) ∧
    findJobById (getJob demoStore 1).2 1 = some { demoJob with views := 1 } :=
  ⟨(C9_getJob_increments_views_only demoStore 99).1 (by decide),
   ((C9_getJob_increments_views_only demoStore 1).2 demoJob (by decide)).2.1⟩

/-- C10.  A patch supplied by the owning employer may carry `employer`,
`company`, `views`, `applicationCount` and `isFeatured`; the update succeeds
and the stored job is exactly the patched record, whose corresponding
fields equal the patched values — the ownership reference and the
denormalized counters are patchable through the public operation. -/
theorem C10_updateJob_patches_protected_fields (st : Store) (E J : Nat)
    (p : JobPatch) (j : JobRec) (e c v : Nat) (ac : Int) (f : Bool)
    (hfind : findJobById st J = some j) (hown : j.employer = E)
    (he : p.employer = some e) (hc : p.company = some c) (hv : p.views = some v)
    (ha : p.applicationCount = some ac) (hf : p.isFeatured = some f) :
    (updateJob st E J p).1 = Res.ok ∧
    findJobById (updateJob st E J p).2 J = some (applyJobPatch j p) ∧
    (applyJobPatch j p).employer = e ∧ (applyJobPatch j p).company = c ∧
    (applyJobPatch j p).views = v ∧ (applyJobPatch j p).applicationCount = ac ∧
    (applyJobPatch j p).isFeatured = f := by
  have hfind' : st.jobs.find? (fun x => x.id == J) = some j := hfind
  have hjid : (j.id == J) = true := by simpa using List.find?_some hfind'
  have hupd : updateJob st E J p = (Res.ok, { st with jobs := patchJobs st.jobs J p }) := by
    simp [updateJob, hfind, hown]
  have hmap : findJobById { st with jobs := patchJobs st.jobs J p } J =
      some (applyJobPatch j p) := by
    show (patchJobs st.jobs J p).find? (fun x => x.id == J) = _
    unfold patchJobs
    rw [find?_map_congr st.jobs _ _ ?hfp]
    case hfp =>
      intro a
      by_cases h : (a.id == J) = true <;> simp [h, applyJobPatch]
    rw [hfind']
    show some (if (j.id == J) = true then applyJobPatch j p else j) = _
    rw [if_pos hjid]
  rw [hupd]
  refine ⟨rfl, hmap, ?_, ?_, ?_, ?_, ?_⟩ <;> simp [applyJobPatch, he, hc, hv, ha, hf]

/-- A patch rewriting the ownership reference, both counters and the
featured flag of a job. -/
def c10Patch : JobPatch :=
  { emptyJobPatch with
    employer := some 9, company := some 8, views := some 3,
    applicationCount := some 7, isFeatured := some true }

/-- Witness for C10: employer 1 patches job 1 with `c10Patch`; the update
succeeds and the stored job carries the patched employer, company, views,
applicationCount and isFeatured. -/
theorem C10_witness :
    (updateJob demoStore 1 1 c10Patch).1 = Res.ok ∧
    findJobById (updateJob demoStore 1 1 c10Patch).2 1 = some (applyJobPatch demoJob c10Patch) ∧
    (applyJobPatch demoJob c10Patch).employer = 9 ∧
    (applyJobPatch demoJob c10Patch).applicationCount = 7 :=
  have h := C10_updateJob_patches_protected_fields demoStore 1 1 c10Patch demoJob 9 8 3 7 true
    (by decide) (by decide) (by decide) (by decide) (by decide) (by decide) (by decide)
  ⟨h.1, h.2.1, h.2.2.1, h.2.2.2.2.2.1⟩

end PartTimeJob
